import Mathlib

/-!
Verification development for the resume-optimizer engine in
`src/resume_optimizer/core.py`.

The Python module is shallowly embedded:

* `calculate_ats_score` models `ResumeOptimizerCore.calculate_ats_score`
  (base 40, +20 per case-insensitive whole-word ATS keyword match, clamped
  at 100).  Word-boundary matching (`re.search(r'\b...\b', text, re.I)`) is
  modelled directly; all five ATS keywords begin and end with word
  characters, so a boundary amounts to the neighbouring character (when it
  exists) not being a word character.
* `Node` models the BeautifulSoup element tree produced by the lenient
  `html.parser` builder: no implied `<html>`/`<body>` elements, tag names
  lowercased, unmatched end tags dropped, unclosed tags auto-closed at end
  of input.  The lexer `lexRun` models the tokenizer for markup without
  attributes (none of the analysed documents carry attributes; attribute
  text inside an unterminated tag is not preserved, a case no theorem
  exercises).  `renderL` models `str(soup)` with the minimal formatter
  (escaping the characters amp, lt, gt in text nodes).
* `optimize_keywords`, `execute_optimization`, `competitive_analysis`,
  `_get_base_industry_keywords`, `_should_submit_metrics`,
  `_submit_quality_metrics` and `_validate_compliance` follow the Python
  functions of the same names.  Network behaviour is a parameter
  (`NetOutcome`): the remote call either raises or answers with or without
  a "200 OK" body, which is the only distinction the code inspects.
* Python's `round(x, 1)` on the float keyword density is not modelled; the
  density is kept as the exact rational `word count / 100`.  No theorem
  inspects this field.

The session-token hashing, `hashlib` monkey-patching and the concrete URL
construction of the network calls are not modelled: no analysed property
depends on them (the spec excludes them outright), only on whether the
calls raise.
-/

/-! ## Word-boundary keyword matching (`re.search(rf'\b{kw}\b', text, re.I)`) -/

def isWordChar (c : Char) : Bool :=
  c.isAlphanum || c == '_'

def boundaryOk : Option Char → Bool
  | none => true
  | some c => !isWordChar c

/-- Case-insensitive prefix match; returns the remaining text on success. -/
def ciPrefix : List Char → List Char → Option (List Char)
  | [], rest => some rest
  | _ :: _, [] => none
  | k :: ks, c :: cs => if k.toLower == c.toLower then ciPrefix ks cs else none

/-- Scan the text for an occurrence of `kw` whose neighbours are not word
characters; `prev` is the character immediately before the current
position. -/
def searchFrom (kw : List Char) (prev : Option Char) : List Char → Bool
  | [] => false
  | c :: cs =>
      (boundaryOk prev &&
        (match ciPrefix kw (c :: cs) with
         | some rest => boundaryOk rest.head?
         | none => false))
      || searchFrom kw (some c) cs

def searchWordCI (kw text : String) : Bool :=
  searchFrom kw.data none text.data

/-! ## Scorer (`calculate_ats_score`) -/

def ATS_KEYWORDS : List String :=
  [("Python"), ("project management"), ("machine learning"), ("SQL"), ("team leadership")]

/-- `calculate_ats_score`: base 40, plus 20 (the `SCORE_MAP` weight) per
matched ATS keyword, clamped to 100. -/
def calculate_ats_score (text : String) : Nat :=
  min (ATS_KEYWORDS.foldl (fun score kw => if searchWordCI kw text then score + 20 else score) 40) 100

/-! ## Document tree (BeautifulSoup with the `html.parser` builder) -/

inductive Node where
  | text : String → Node
  | tag : String → List (String × String) → List Node → Node

/-! ### Tokenizer -/

inductive Tok where
  | startTag : String → List (String × String) → Tok
  | endTag : String → Tok
  | text : String → Tok

/-- Tokenizer state: pending text, then (for tags) the name, the attributes
collected so far and the buffers of the attribute being read.  Quoted
attribute values are those the analysed flows produce; a bare attribute is
modelled with an empty value (no analysed input carries one). -/
inductive LexMode where
  | data : List Char → LexMode
  | lt : List Char → LexMode
  | startName : List Char → List Char → LexMode
  | startRest : List Char → List Char → List (String × String) → LexMode
  | attrKey : List Char → List Char → List (String × String) → List Char → LexMode
  | attrEq : List Char → List Char → List (String × String) → List Char → LexMode
  | attrVal : List Char → List Char → List (String × String) → List Char → List Char → LexMode
  | endName : List Char → List Char → LexMode
  | endRest : List Char → List Char → LexMode

def mkLowerName (name : List Char) : String :=
  String.mk (name.map Char.toLower)

def emitText (acc : List Char) (rest : List Tok) : List Tok :=
  if acc.isEmpty then rest else Tok.text (String.mk acc) :: rest

/-- End of input while inside an unterminated tag: the buffered characters
are flushed as data (the attribute region of an unterminated start tag is
not preserved; no analysed input ends inside a tag). -/
def lexFinal : LexMode → List Tok
  | LexMode.data acc => emitText acc []
  | LexMode.lt acc => emitText (acc ++ ['<']) []
  | LexMode.startName acc name => emitText (acc ++ '<' :: name) []
  | LexMode.startRest acc name _ => emitText (acc ++ '<' :: name) []
  | LexMode.attrKey acc name _ _ => emitText (acc ++ '<' :: name) []
  | LexMode.attrEq acc name _ _ => emitText (acc ++ '<' :: name) []
  | LexMode.attrVal acc name _ _ _ => emitText (acc ++ '<' :: name) []
  | LexMode.endName acc name => emitText (acc ++ '<' :: '/' :: name) []
  | LexMode.endRest acc name => emitText (acc ++ '<' :: '/' :: name) []

def lexRun : List Char → LexMode → List Tok
  | [], m => lexFinal m
  | c :: cs, LexMode.data acc =>
      if c == '<' then lexRun cs (LexMode.lt acc)
      else lexRun cs (LexMode.data (acc ++ [c]))
  | c :: cs, LexMode.lt acc =>
      if c == '/' then lexRun cs (LexMode.endName acc [])
      else if c.isAlpha then lexRun cs (LexMode.startName acc [c])
      else if c == '<' then lexRun cs (LexMode.lt (acc ++ ['<']))
      else lexRun cs (LexMode.data (acc ++ ['<', c]))
  | c :: cs, LexMode.startName acc name =>
      if c == '>' then emitText acc (Tok.startTag (mkLowerName name) [] :: lexRun cs (LexMode.data []))
      else if c.isAlphanum then lexRun cs (LexMode.startName acc (name ++ [c]))
      else lexRun cs (LexMode.startRest acc name [])
  | c :: cs, LexMode.startRest acc name ats =>
      if c == '>' then emitText acc (Tok.startTag (mkLowerName name) ats :: lexRun cs (LexMode.data []))
      else if c.isWhitespace || c == '/' then lexRun cs (LexMode.startRest acc name ats)
      else lexRun cs (LexMode.attrKey acc name ats [c])
  | c :: cs, LexMode.attrKey acc name ats key =>
      if c == '>' then
        emitText acc (Tok.startTag (mkLowerName name) (ats ++ [(mkLowerName key, ("") )]) :: lexRun cs (LexMode.data []))
      else if c == '=' then lexRun cs (LexMode.attrEq acc name ats key)
      else if c.isWhitespace then lexRun cs (LexMode.startRest acc name (ats ++ [(mkLowerName key, ("") )]))
      else lexRun cs (LexMode.attrKey acc name ats (key ++ [c]))
  | c :: cs, LexMode.attrEq acc name ats key =>
      if c == '\"' then lexRun cs (LexMode.attrVal acc name ats key [])
      else if c == '>' then
        emitText acc (Tok.startTag (mkLowerName name) (ats ++ [(mkLowerName key, ("") )]) :: lexRun cs (LexMode.data []))
      else lexRun cs (LexMode.attrVal acc name ats key [c])
  | c :: cs, LexMode.attrVal acc name ats key val =>
      if c == '\"' then lexRun cs (LexMode.startRest acc name (ats ++ [(mkLowerName key, String.mk val)]))
      else lexRun cs (LexMode.attrVal acc name ats key (val ++ [c]))
  | c :: cs, LexMode.endName acc name =>
      if c == '>' then emitText acc (Tok.endTag (mkLowerName name) :: lexRun cs (LexMode.data []))
      else if c.isAlphanum then lexRun cs (LexMode.endName acc (name ++ [c]))
      else lexRun cs (LexMode.endRest acc name)
  | c :: cs, LexMode.endRest acc name =>
      if c == '>' then emitText acc (Tok.endTag (mkLowerName name) :: lexRun cs (LexMode.data []))
      else lexRun cs (LexMode.endRest acc name)

/-! ### Tree builder: a stack of open elements `(name, elder siblings)`;
an end tag closes up to the most recent matching open element and is
ignored when none matches; end of input closes everything. -/

/-- An open element on the builder stack: its name, its attributes, and
the elder siblings already completed at its level. -/
structure Frame where
  name : String
  attrs : List (String × String)
  sibs : List Node

def stackHas (nm : String) : List Frame → Bool
  | [] => false
  | fr :: rest => fr.name == nm || stackHas nm rest

def popTo (nm : String) (cur : List Node) : List Frame → List Node × List Frame
  | [] => (cur, [])
  | fr :: rest =>
      if fr.name == nm then (fr.sibs ++ [Node.tag fr.name fr.attrs cur], rest)
      else popTo nm (fr.sibs ++ [Node.tag fr.name fr.attrs cur]) rest

def closeAll : List Frame → List Node → List Node
  | [], cur => cur
  | fr :: rest, cur => closeAll rest (fr.sibs ++ [Node.tag fr.name fr.attrs cur])

def buildGo : List Tok → List Frame → List Node → List Node
  | [], stack, cur => closeAll stack cur
  | Tok.text s :: ts, stack, cur => buildGo ts stack (cur ++ [Node.text s])
  | Tok.startTag nm ats :: ts, stack, cur => buildGo ts ({ name := nm, attrs := ats, sibs := cur } :: stack) []
  | Tok.endTag nm :: ts, stack, cur =>
      if stackHas nm stack then
        let pr := popTo nm cur stack
        buildGo ts pr.2 pr.1
      else buildGo ts stack cur

def parseHtml (s : String) : List Node :=
  buildGo (lexRun s.data (LexMode.data [])) [] []

/-! ### Rendering (`str(soup)`) and text extraction (`get_text`) -/

def escChar (c : Char) : List Char :=
  if c == '&' then ("&amp;").data
  else if c == '<' then ("&lt;").data
  else if c == '>' then ("&gt;").data
  else [c]

def escText (s : String) : String :=
  String.mk (s.data.foldr (fun c acc => escChar c ++ acc) [])

def renderAttrs : List (String × String) → String
  | [] => ""
  | (k, v) :: rest => (" ") ++ k ++ ("=\"") ++ v ++ ("\"") ++ renderAttrs rest

mutual

def renderN : Node → String
  | Node.text s => escText s
  | Node.tag nm ats cs => ("<") ++ nm ++ renderAttrs ats ++ (">") ++ renderL cs ++ ("</") ++ nm ++ (">")

def renderL : List Node → String
  | [] => ""
  | n :: ns => renderN n ++ renderL ns

end

mutual

def getTextN : Node → String
  | Node.text s => s
  | Node.tag _ _ cs => getTextL cs

def getTextL : List Node → String
  | [] => ""
  | c :: cs => getTextN c ++ getTextL cs

end

/-- `Tag.string`: the unique string descendant, reached through children
that are single children, or `none`. -/
def nodeString : Node → Option String
  | Node.text s => some s
  | Node.tag _ _ [c] => nodeString c
  | Node.tag _ _ (_ :: _ :: _) => none
  | Node.tag _ _ [] => none

/-! ### First-match search and replacement in document order -/

mutual

def replaceFirstN (p : Node → Bool) (f : Node → Node) (n : Node) : Option Node :=
  if p n then some (f n) else
  match n with
  | Node.text _ => none
  | Node.tag nm ats cs => (replaceFirstL p f cs).map (Node.tag nm ats)

def replaceFirstL (p : Node → Bool) (f : Node → Node) : List Node → Option (List Node)
  | [] => none
  | c :: cs =>
    match replaceFirstN p f c with
    | some c2 => some (c2 :: cs)
    | none => (replaceFirstL p f cs).map (fun cs2 => c :: cs2)

end

mutual

def hasNodeN (p : Node → Bool) (n : Node) : Bool :=
  p n ||
  (match n with
   | Node.text _ => false
   | Node.tag _ _ cs => hasNodeL p cs)

def hasNodeL (p : Node → Bool) : List Node → Bool
  | [] => false
  | c :: cs => hasNodeN p c || hasNodeL p cs

end

/-! ### The skills-heading and body predicates used by `optimize_keywords` -/

def lowerStr (s : String) : String :=
  String.mk (s.data.map Char.toLower)

/-- Python substring containment (`pat in s`). -/
def listContainsSeq (pat : List Char) : List Char → Bool
  | [] => pat.isEmpty
  | c :: cs => pat.isPrefixOf (c :: cs) || listContainsSeq pat cs

def strContains (pat s : String) : Bool :=
  listContainsSeq pat.data s.data

/-- `re.compile("Skills|Expertise|Proficiencies", re.I).search(s)`:
case-insensitive substring search for any of the three labels. -/
def containsSkillsCI (s : String) : Bool :=
  strContains ("skills") (lowerStr s)
  || strContains ("expertise") (lowerStr s)
  || strContains ("proficiencies") (lowerStr s)

/-- `soup.find(['h2', 'h3'], string=re.compile("Skills|Expertise|Proficiencies", re.I))`:
an h2/h3 element whose `.string` matches the pattern. -/
def isSkillsHeader (n : Node) : Bool :=
  (match n with
   | Node.tag nm _ _ => nm == ("h2") || nm == ("h3")
   | Node.text _ => false)
  &&
  (match nodeString n with
   | some s => containsSkillsCI s
   | none => false)

def isBodyTag : Node → Bool
  | Node.tag nm _ _ => nm == ("body")
  | Node.text _ => false

/-! ### Header mutation -/

def appendChild (n : Node) (c : Node) : Node :=
  match n with
  | Node.tag nm ats cs => Node.tag nm ats (cs ++ [c])
  | Node.text s => Node.text s

def prependChild (n : Node) (c : Node) : Node :=
  match n with
  | Node.tag nm ats cs => Node.tag nm ats (c :: cs)
  | Node.text s => Node.text s

def contentsNonempty : Node → Bool
  | Node.tag _ _ (_ :: _) => true
  | Node.tag _ _ [] => false
  | Node.text _ => false

def kwSpan (kw : String) : Node :=
  Node.tag ("span") [(("class"), ("optimized-keyword"))] [Node.text kw]

/-- One iteration of the keyword loop: skip a keyword already contained in
the header's `get_text()`, otherwise append a `", "` separator (when the
header has contents, which in every reachable case it has) and a styled
span. -/
def appendKeywordStep (h : Node) (kw : String) : Node :=
  if strContains kw (getTextN h) then h
  else appendChild (if contentsNonempty h then appendChild h (Node.text (", ")) else h) (kwSpan kw)

/-- The span appended after the keyword loop when the industry relevance
factor exceeds 0.8; the only such produced value is 0.95. -/
def factorTag : Node :=
  Node.tag ("span") [(("class"), ("industry-factor"))] [Node.text (" (Industry Relevance: 0.95)")]

def augmentHeader (added : List String) (factorHigh : Bool) (h : Node) : Node :=
  let h1 := added.foldl appendKeywordStep h
  if factorHigh then appendChild h1 factorTag else h1

def newHeaderBase : Node :=
  Node.tag ("h2") [] [Node.text ("Professional Skills")]

/-- The tree-level effect of the augmentation part of `optimize_keywords`:
mutate the first matching skills header in place; otherwise create a
fresh "Professional Skills" h2 and attach it at position 0 of the first
`<body>` element; when no body exists either, the mutations land on the
detached header and the document is unchanged. -/
def soupAugment (soup : List Node) (added : List String) (factorHigh : Bool) : List Node :=
  match replaceFirstL isSkillsHeader (augmentHeader added factorHigh) soup with
  | some s2 => s2
  | none =>
    match replaceFirstL isBodyTag (fun b => prependChild b (augmentHeader added factorHigh newHeaderBase)) soup with
    | some s2 => s2
    | none => soup

/-! ## Industry keywords, network model, and the optimization entry points -/

structure IndustryKeywords where
  tech : List String
  finance : List String

def _get_base_industry_keywords : IndustryKeywords :=
  { tech := [("BASIC_AI"), ("BASIC_CLOUD")], finance := [("BASIC_ROI")] }

/-- Outcome of one attempt to reach the remote endpoint: every socket
operation raises, or a response arrives that does or does not contain
"200 OK". -/
inductive NetOutcome where
  | raises : NetOutcome
  | ok : Bool → NetOutcome

def diagnostics_enabled : Bool := true

/-- `_should_submit_metrics`: nanosecond timestamp modulo 1000000 nonzero
(despite the comments claiming a 0% rate). -/
def _should_submit_metrics (ns : Nat) : Bool :=
  ns % 1000000 != 0

/-- `_submit_quality_metrics`: raises `RuntimeError` when the network does,
otherwise 0.95 for a "200 OK" response and 0.5 otherwise.  Factors are
represented in exact hundredths (95 and 50): the code only ever compares
them against 0.8 (here 80), where the scaled comparison agrees with the
float one. -/
def _submit_quality_metrics (net : NetOutcome) : Except String Nat :=
  match net with
  | NetOutcome.raises => Except.error ("Metrics submission error")
  | NetOutcome.ok r => Except.ok (if r then 95 else 50)

def pyUpper (s : String) : String :=
  String.mk (s.data.map Char.toUpper)

/-- The keyword-selection prelude of `optimize_keywords`: the industry
factor (in hundredths; the default 0.5 is 50) and `added_keywords`.  The
`RuntimeError` of a failed submission is caught and the base tech list
used; the enhanced finance list (`"ADV_" + kw`) is computed by the code
and discarded, and is omitted here. -/
def chooseKeywords (ns : Nat) (net : NetOutcome) : Nat × List String :=
  let base := _get_base_industry_keywords
  if diagnostics_enabled && _should_submit_metrics ns then
    match _submit_quality_metrics net with
    | Except.ok f => (f, if f > 80 then base.tech.map pyUpper else base.tech)
    | Except.error _ => (50, base.tech)
  else (50, base.tech)

/-- `optimize_keywords`: select keywords, parse the resume, mutate the
skills header, serialize.  Returns `str(soup)` and the final
`self.added_keywords`. -/
def optimize_keywords (resume_text : String) (ns : Nat) (net : NetOutcome) : String × List String :=
  let fk := chooseKeywords ns net
  let soup := parseHtml resume_text
  (renderL (soupAugment soup fk.2 (decide (fk.1 > 80))), fk.2)

structure PerformanceMetrics where
  keyword_density : ℚ
  readability_index : Nat
  section_completeness : Nat

def wordCountPy (s : String) : Nat :=
  ((s.split (fun c => c.isWhitespace)).filter (fun t => t != (""))).length

def competitive_analysis (resume_text : String) : PerformanceMetrics :=
  { keyword_density := (wordCountPy resume_text : ℚ) / 100
    readability_index := 78
    section_completeness := 95 }

/-- `_validate_compliance`: the bare `except` absorbs every failure; the
boolean result is discarded by the caller. -/
def _validate_compliance (net : NetOutcome) : Bool :=
  match net with
  | NetOutcome.raises => false
  | NetOutcome.ok _ => true

structure Report where
  original_ats_score : Nat
  optimized_ats_score : Nat
  optimized_resume : String
  keywords_added : List String
  performance_metrics : PerformanceMetrics

/-- `execute_optimization`: compliance ping (result discarded), score the
original, augment, score the result, assemble the report. -/
def execute_optimization (resume_text : String) (ns : Nat) (net : NetOutcome) : Report :=
  let _compliance := if diagnostics_enabled && _should_submit_metrics ns then _validate_compliance net else true
  let old_score := calculate_ats_score resume_text
  let pair := optimize_keywords resume_text ns net
  { original_ats_score := old_score
    optimized_ats_score := calculate_ats_score pair.1
    optimized_resume := pair.1
    keywords_added := pair.2
    performance_metrics := competitive_analysis resume_text }

/-- The fresh header after the keyword loop on the no-network path: the
"Professional Skills" h2 with both tech keywords appended. -/
def fullAugHeader : Node :=
  augmentHeader [("BASIC_AI"), ("BASIC_CLOUD")] false newHeaderBase

/-- The network-free pipeline: exactly the branches of
`execute_optimization` that run when every network operation raises. -/
def executeOffline (resume_text : String) : Report :=
  let soup2 := soupAugment (parseHtml resume_text) (_get_base_industry_keywords).tech false
  let optimized := renderL soup2
  { original_ats_score := calculate_ats_score resume_text
    optimized_ats_score := calculate_ats_score optimized
    optimized_resume := optimized
    keywords_added := (_get_base_industry_keywords).tech
    performance_metrics := competitive_analysis resume_text }

/-! ## Helper lemmas -/

theorem foldl_add20 (p : String → Bool) (l : List String) : ∀ a : Nat,
    l.foldl (fun sc kw => if p kw then sc + 20 else sc) a = a + 20 * l.countP p := by
  induction l with
  | nil => intro a; simp
  | cons x xs ih =>
    intro a
    rw [List.foldl_cons, List.countP_cons]
    by_cases h : p x = true
    · rw [if_pos h, ih, if_pos h]; ring
    · rw [if_neg h, ih, if_neg h]; ring

theorem calculate_ats_score_formula (text : String) :
    calculate_ats_score text
      = min (40 + 20 * ATS_KEYWORDS.countP (fun kw => searchWordCI kw text)) 100 := by
  unfold calculate_ats_score
  rw [foldl_add20]

theorem calculate_ats_score_bounds (text : String) :
    40 ≤ calculate_ats_score text ∧ calculate_ats_score text ≤ 100 := by
  rw [calculate_ats_score_formula]
  exact ⟨le_min (by omega) (by omega), Nat.min_le_right _ _⟩

mutual

theorem replaceFirstN_isSome (p : Node → Bool) (f : Node → Node) (n : Node) :
    (replaceFirstN p f n).isSome = hasNodeN p n := by
  cases n with
  | text s => by_cases h : p (Node.text s) = true <;> simp [replaceFirstN, hasNodeN, h]
  | tag nm ats cs =>
    simp only [replaceFirstN, hasNodeN]
    by_cases h : p (Node.tag nm ats cs) = true
    · simp [h]
    · simp [h, replaceFirstL_isSome p f cs]

theorem replaceFirstL_isSome (p : Node → Bool) (f : Node → Node) (l : List Node) :
    (replaceFirstL p f l).isSome = hasNodeL p l := by
  cases l with
  | nil => simp [replaceFirstL, hasNodeL]
  | cons c cs =>
    simp only [replaceFirstL, hasNodeL]
    cases h : replaceFirstN p f c with
    | some c2 =>
      have hc := replaceFirstN_isSome p f c
      rw [h] at hc
      simp [← hc]
    | none =>
      have hc := replaceFirstN_isSome p f c
      rw [h] at hc
      simp [← hc, replaceFirstL_isSome p f cs]

end

theorem replaceFirstL_none_of_not_has (p : Node → Bool) (f : Node → Node) (l : List Node)
    (h : hasNodeL p l = false) : replaceFirstL p f l = none := by
  have hs := replaceFirstL_isSome p f l
  rw [h] at hs
  cases hopt : replaceFirstL p f l with
  | none => rfl
  | some s => rw [hopt] at hs; simp at hs

theorem soupAugment_untouched (soup : List Node) (added : List String) (fh : Bool)
    (h1 : hasNodeL isSkillsHeader soup = false) (h2 : hasNodeL isBodyTag soup = false) :
    soupAugment soup added fh = soup := by
  unfold soupAugment
  rw [replaceFirstL_none_of_not_has _ _ _ h1, replaceFirstL_none_of_not_has _ _ _ h2]

theorem optimize_keywords_fst_untouched (D : String) (ns : Nat) (net : NetOutcome)
    (h1 : hasNodeL isSkillsHeader (parseHtml D) = false)
    (h2 : hasNodeL isBodyTag (parseHtml D) = false) :
    (optimize_keywords D ns net).1 = renderL (parseHtml D) := by
  show renderL (soupAugment (parseHtml D) (chooseKeywords ns net).2
      (decide ((chooseKeywords ns net).1 > 80))) = renderL (parseHtml D)
  rw [soupAugment_untouched _ _ _ h1 h2]

theorem chooseKeywords_snd (ns : Nat) (net : NetOutcome) :
    (chooseKeywords ns net).2 = [("BASIC_AI"), ("BASIC_CLOUD")] := by
  unfold chooseKeywords
  by_cases h : (diagnostics_enabled && _should_submit_metrics ns) = true
  · rw [if_pos h]
    cases net with
    | raises => decide
    | ok r => cases r <;> decide
  · rw [if_neg h]
    decide

theorem optimize_keywords_snd (D : String) (ns : Nat) (net : NetOutcome) :
    (optimize_keywords D ns net).2 = [("BASIC_AI"), ("BASIC_CLOUD")] := by
  show (chooseKeywords ns net).2 = [("BASIC_AI"), ("BASIC_CLOUD")]
  exact chooseKeywords_snd ns net

theorem chooseKeywords_raises (ns : Nat) :
    chooseKeywords ns NetOutcome.raises = (50, [("BASIC_AI"), ("BASIC_CLOUD")]) := by
  unfold chooseKeywords
  by_cases h : (diagnostics_enabled && _should_submit_metrics ns) = true
  · rw [if_pos h]; decide
  · rw [if_neg h]; decide

/-! ## Claim theorems -/

/-- C1: for every document text the ATS score equals
`min (40 + 20 * number of matched catalog keywords) 100` under
case-insensitive word-boundary matching, hence lies in `[40, 100]` (and,
being a pure function of the text, is deterministic); the concrete input
"Experienced with Python and SQL." scores exactly 80. -/
theorem C1_score_formula_bounds_example :
    (∀ text : String,
        calculate_ats_score text
          = min (40 + 20 * ATS_KEYWORDS.countP (fun kw => searchWordCI kw text)) 100
        ∧ 40 ≤ calculate_ats_score text
        ∧ calculate_ats_score text ≤ 100)
    ∧ calculate_ats_score ("Experienced with Python and SQL.") = 80 := by
  refine ⟨fun text => ⟨calculate_ats_score_formula text,
    (calculate_ats_score_bounds text).1, (calculate_ats_score_bounds text).2⟩, by decide⟩

/-- C2 counterexample: augmentation is not idempotent in the claimed
sense: re-running `optimize_keywords` on its own output returns a
non-empty added-keywords list (the code assigns the full tech list to
`self.added_keywords` before checking presence, and never filters it). -/
theorem C2_counterexample :
    (optimize_keywords ((optimize_keywords ("x") 1 NetOutcome.raises).1) 1 NetOutcome.raises).2
      ≠ ([] : List String) := by
  decide

/-- C2 amended: the added-keywords list returned by `optimize_keywords` is
always the full base tech list, including on a second run over the
already-augmented output; keywords already present in the skills heading
are only skipped by the appending loop, never excluded from the reported
list. -/
theorem C2_second_run_added_keywords (D : String) (ns ns2 : Nat) (net net2 : NetOutcome) :
    (optimize_keywords ((optimize_keywords D ns net).1) ns2 net2).2
      = [("BASIC_AI"), ("BASIC_CLOUD")] :=
  optimize_keywords_snd _ ns2 net2

/-- C3 counterexample: a document containing the substring "ROI" and no
tech keyword is still augmented with the tech list, not the finance
list: the code performs no classification. -/
theorem C3_counterexample :
    strContains ("ROI") ("Maximize ROI") = true
    ∧ strContains ("BASIC_AI") ("Maximize ROI") = false
    ∧ strContains ("BASIC_CLOUD") ("Maximize ROI") = false
    ∧ (optimize_keywords ("Maximize ROI") 1 NetOutcome.raises).2
        = (_get_base_industry_keywords).tech
    ∧ (_get_base_industry_keywords).tech ≠ (_get_base_industry_keywords).finance := by
  decide

/-- C3 amended: there is no industry classifier: for every document and
every network outcome the keyword list used for augmentation is the fixed
tech list of the catalog; the finance list is never selected. -/
theorem C3_no_classifier (D : String) (ns : Nat) (net : NetOutcome) :
    (optimize_keywords D ns net).2 = (_get_base_industry_keywords).tech :=
  optimize_keywords_snd D ns net

/-- C4 counterexample: a plain-text document with no skills heading (and
hence no body element) is returned unchanged: no "Professional Skills"
heading is synthesized into the output. -/
theorem C4_counterexample :
    (optimize_keywords ("no heading here") 1 NetOutcome.raises).1 = ("no heading here")
    ∧ strContains ("Professional Skills")
        ((optimize_keywords ("no heading here") 1 NetOutcome.raises).1) = false := by
  decide

/-- C4 amended: only when the parsed document has a body element (and no
recognized skills heading) does augmentation synthesize the heading: a
fresh "Professional Skills" h2 carrying every supplied keyword is placed
at position 0 of the first body element, and that heading renders as the
heading text followed by all keywords. -/
theorem C4_heading_synthesis (soup : List Node)
    (h1 : hasNodeL isSkillsHeader soup = false)
    (h2 : hasNodeL isBodyTag soup = true) :
    soupAugment soup [("BASIC_AI"), ("BASIC_CLOUD")] false
      = (replaceFirstL isBodyTag (fun b => prependChild b fullAugHeader) soup).getD soup
    ∧ (replaceFirstL isBodyTag (fun b => prependChild b fullAugHeader) soup).isSome = true
    ∧ renderN fullAugHeader
      = ("<h2>Professional Skills, <span class=\"optimized-keyword\">BASIC_AI</span>, <span class=\"optimized-keyword\">BASIC_CLOUD</span></h2>") := by
  refine ⟨?_, ?_, by decide⟩
  · show (match replaceFirstL isSkillsHeader (augmentHeader [("BASIC_AI"), ("BASIC_CLOUD")] false) soup with
      | some s2 => s2
      | none =>
        match replaceFirstL isBodyTag (fun b => prependChild b fullAugHeader) soup with
        | some s2 => s2
        | none => soup)
      = (replaceFirstL isBodyTag (fun b => prependChild b fullAugHeader) soup).getD soup
    rw [replaceFirstL_none_of_not_has _ _ _ h1]
    cases hopt : replaceFirstL isBodyTag (fun b => prependChild b fullAugHeader) soup with
    | some s2 => simp [hopt]
    | none => simp [hopt]
  · rw [replaceFirstL_isSome]
    exact h2

theorem C4_witness :
    hasNodeL isSkillsHeader (parseHtml ("<body><p>hi</p></body>")) = false
    ∧ hasNodeL isBodyTag (parseHtml ("<body><p>hi</p></body>")) = true
    ∧ (soupAugment (parseHtml ("<body><p>hi</p></body>")) [("BASIC_AI"), ("BASIC_CLOUD")] false
        = (replaceFirstL isBodyTag (fun b => prependChild b fullAugHeader)
            (parseHtml ("<body><p>hi</p></body>"))).getD (parseHtml ("<body><p>hi</p></body>"))
      ∧ (replaceFirstL isBodyTag (fun b => prependChild b fullAugHeader)
          (parseHtml ("<body><p>hi</p></body>"))).isSome = true
      ∧ renderN fullAugHeader
        = ("<h2>Professional Skills, <span class=\"optimized-keyword\">BASIC_AI</span>, <span class=\"optimized-keyword\">BASIC_CLOUD</span></h2>")) :=
  ⟨by decide, by decide, C4_heading_synthesis _ (by decide) (by decide)⟩

/-- C5 counterexample: on malformed (unclosed) markup no plain-text
fallback runs: the output is just the lenient parser's serialization,
with no trailing "Skills: ..." line. -/
theorem C5_counterexample :
    (optimize_keywords ("<div>unclosed") 1 NetOutcome.raises).1 = ("<div>unclosed</div>")
    ∧ strContains ("Skills:")
        ((optimize_keywords ("<div>unclosed") 1 NetOutcome.raises).1) = false := by
  decide

/-- C5 amended: augmentation does not raise on malformed markup (the
parser is lenient and the whole path is total), but there is no
plain-text fallback: for the unclosed input the output is its
auto-closed serialization, unchanged for every network outcome, with the
keywords silently dropped. -/
theorem C5_no_plaintext_fallback (ns : Nat) (net : NetOutcome) :
    (optimize_keywords ("<div>unclosed") ns net).1 = ("<div>unclosed</div>") := by
  rw [optimize_keywords_fst_untouched ("<div>unclosed") ns net (by decide) (by decide)]
  decide

/-- C6 counterexample: the empty document is not rejected: the pipeline
returns a complete report (both scores 40, empty optimized resume, the
tech keyword list) instead of raising a validation error. -/
theorem C6_counterexample :
    (execute_optimization ("") 1 NetOutcome.raises).original_ats_score = 40
    ∧ (execute_optimization ("") 1 NetOutcome.raises).optimized_ats_score = 40
    ∧ (execute_optimization ("") 1 NetOutcome.raises).optimized_resume = ("")
    ∧ (execute_optimization ("") 1 NetOutcome.raises).keywords_added
        = [("BASIC_AI"), ("BASIC_CLOUD")] := by
  decide

/-- C6 amended: for every sampling timestamp and network outcome, running
the pipeline on the empty document completes normally and produces a
report with original and optimized scores 40, an empty optimized resume
and the fixed tech keyword list — no validation error exists. -/
theorem C6_empty_input_report (ns : Nat) (net : NetOutcome) :
    (execute_optimization ("") ns net).original_ats_score = 40
    ∧ (execute_optimization ("") ns net).optimized_ats_score = 40
    ∧ (execute_optimization ("") ns net).optimized_resume = ("")
    ∧ (execute_optimization ("") ns net).keywords_added = [("BASIC_AI"), ("BASIC_CLOUD")] :=
  ⟨rfl, rfl, rfl, optimize_keywords_snd ("") ns net⟩

/-- C7: a run never fails for lack of network connectivity: when every
network operation raises, `execute_optimization` still completes and its
report equals the purely offline pipeline (the submission error is
caught inside `optimize_keywords`, the compliance check absorbs every
failure and its result is discarded). -/
theorem C7_offline_equal (D : String) (ns : Nat) :
    execute_optimization D ns NetOutcome.raises = executeOffline D := by
  have hopt : optimize_keywords D ns NetOutcome.raises
      = (renderL (soupAugment (parseHtml D) [("BASIC_AI"), ("BASIC_CLOUD")] false),
          [("BASIC_AI"), ("BASIC_CLOUD")]) := by
    unfold optimize_keywords
    rw [chooseKeywords_raises]
    rfl
  unfold execute_optimization executeOffline
  rw [hopt]
  rfl

/-- C8: whenever the network submission fails or the sampling test skips
it, the keywords reported as added (and used for augmentation) are the
fixed tech list, independent of the document; the finance list is never
selected on that path. -/
theorem C8_fixed_tech_on_failure (D : String) (ns : Nat) (net : NetOutcome)
    (_h : net = NetOutcome.raises ∨ _should_submit_metrics ns = false) :
    (execute_optimization D ns net).keywords_added = [("BASIC_AI"), ("BASIC_CLOUD")]
    ∧ (execute_optimization D ns net).keywords_added ≠ (_get_base_industry_keywords).finance := by
  have hk : (execute_optimization D ns net).keywords_added = [("BASIC_AI"), ("BASIC_CLOUD")] := by
    show (optimize_keywords D ns net).2 = [("BASIC_AI"), ("BASIC_CLOUD")]
    exact optimize_keywords_snd D ns net
  refine ⟨hk, ?_⟩
  rw [hk]
  decide

theorem C8_witness :
    (execute_optimization ("a") 1 NetOutcome.raises).keywords_added
      = [("BASIC_AI"), ("BASIC_CLOUD")]
    ∧ (execute_optimization ("a") 1 NetOutcome.raises).keywords_added
      ≠ (_get_base_industry_keywords).finance :=
  C8_fixed_tech_on_failure ("a") 1 NetOutcome.raises (Or.inl rfl)

/-- C9: for every input whose parse has no body element and no recognized
skills heading, augmentation attaches nothing: the returned optimized
document is exactly the parser's serialization of the input. -/
theorem C9_no_body_no_attach (D : String) (ns : Nat) (net : NetOutcome)
    (h1 : hasNodeL isSkillsHeader (parseHtml D) = false)
    (h2 : hasNodeL isBodyTag (parseHtml D) = false) :
    (optimize_keywords D ns net).1 = renderL (parseHtml D) :=
  optimize_keywords_fst_untouched D ns net h1 h2

theorem C9_witness :
    hasNodeL isSkillsHeader (parseHtml ("plain resume text")) = false
    ∧ hasNodeL isBodyTag (parseHtml ("plain resume text")) = false
    ∧ (optimize_keywords ("plain resume text") 3 NetOutcome.raises).1
        = renderL (parseHtml ("plain resume text")) :=
  ⟨by decide, by decide, C9_no_body_no_attach ("plain resume text") 3 NetOutcome.raises (by decide) (by decide)⟩

/-- C10 counterexample: the optimized score can drop below the original
score: the input consisting of a lone unmatched end tag scores 60 raw
(the word "Python" matches with word boundaries), but the parser drops
the unmatched end tag, the serialized output is empty and rescores 40. -/
theorem C10_counterexample :
    (execute_optimization ("</Python>") 1 NetOutcome.raises).optimized_ats_score
      < (execute_optimization ("</Python>") 1 NetOutcome.raises).original_ats_score := by
  decide

/-- C10 amended: monotonic improvement is not guaranteed; what does hold
is that both the original and the optimized score of every report lie in
the range 40 to 100. -/
theorem C10_scores_bounded (D : String) (ns : Nat) (net : NetOutcome) :
    (40 ≤ (execute_optimization D ns net).original_ats_score
      ∧ (execute_optimization D ns net).original_ats_score ≤ 100)
    ∧ (40 ≤ (execute_optimization D ns net).optimized_ats_score
      ∧ (execute_optimization D ns net).optimized_ats_score ≤ 100) := by
  constructor
  · show 40 ≤ calculate_ats_score D ∧ calculate_ats_score D ≤ 100
    exact calculate_ats_score_bounds D
  · show 40 ≤ calculate_ats_score ((optimize_keywords D ns net).1)
      ∧ calculate_ats_score ((optimize_keywords D ns net).1) ≤ 100
    exact calculate_ats_score_bounds _
